import Mathlib

/-!
Verification of the bcdata request-planning, transport, aggregation and
replication layers (bcdata/wfs.py, bcdata/bc2pg.py, bcdata/database.py),
as a shallow embedding in Lean.

Network-dependent pieces (the true match count returned by the hits query,
the cached schema's property list, the registry of known primary keys and
the per-request feature payloads) are supplied as explicit context values,
so every function below is the pure content of the corresponding Python
method with its effects made into inputs.
-/

namespace BCData

/-- One WFS GetFeature request as assembled by BCWFS.define_requests:
the fixed service fields are implicit, the variable ones are modelled. -/
structure WFSRequest where
  typeName : String
  srsName : String
  sortby : Option String
  cql_filter : Option String
  startIndex : Option Nat
  count : Option Nat
deriving Repr, DecidableEq

/-- The state a BCWFS instance carries that define_requests reads:
server page size (self.pagesize), the authoritative match count the hits
query would return for the (table, query, bounds) triple at hand, the
cached schema's property names in schema order, and the registry
bcdata.primary_keys as an association list with lowercase table keys. -/
structure WFSContext where
  pagesize : Nat
  trueCount : Nat
  properties : List String
  primaryKeys : List (String × String)
deriving Repr

/-- Result of BCWFS.get_sortkey: the chosen column plus whether the
final-heuristic warning was logged. -/
structure SortKey where
  key : String
  warned : Bool
deriving Repr, DecidableEq

/-- BCWFS.get_sortkey: known registered primary key (uppercased), else
OBJECTID when present, else SEQUENCE_ID when present, else the first
schema column, logging a warning in the last case. -/
def get_sortkey (ctx : WFSContext) (table : String) : SortKey :=
  let columns := ctx.properties
  match ctx.primaryKeys.lookup table.toLower with
  | some pk => ⟨pk.toUpper, false⟩
  | none =>
    if "OBJECTID" ∈ columns then ⟨"OBJECTID", false⟩
    else if "SEQUENCE_ID" ∈ columns then ⟨"SEQUENCE_ID", false⟩
    else ⟨columns.headD "", true⟩

/-- BCWFS.build_bounds_filter: combine the CQL query and the rendered
bbox predicate (already a string here) with AND; either may be absent. -/
def build_bounds_filter (query : Option String) (bndQuery : Option String) :
    Option String :=
  match bndQuery with
  | none => query
  | some b =>
    match query with
    | none => some b
    | some q => some (q ++ " AND " ++ b)

/-- Python truthiness of the count argument: None and 0 are falsy. -/
def countTruthy : Option Nat → Bool
  | none => false
  | some n => n != 0

/-- Python truthiness of the sortby argument: None and "" are falsy. -/
def strOptTruthy : Option String → Bool
  | none => false
  | some s => !s.isEmpty

/-- math.ceil(n / p) on naturals (p positive in every real call). -/
def ceilDiv (n p : Nat) : Nat := (n + p - 1) / p

/-- Body of the per-chunk loop of define_requests: one request record.
startIndex and a page-size-capped count are set only in the multi-chunk
branch; a single chunk gets count alone. -/
def chunkRequest (pagesize : Nat) (table crs : String) (sortby : Option String)
    (cql : Option String) (cnt chunks i : Nat) : WFSRequest :=
  { typeName := table
    srsName := crs
    sortby :=
      match sortby with
      | some s => if s.isEmpty then none else some s.toUpper
      | none => none
    cql_filter := cql
    startIndex := if 1 < chunks then some (i * pagesize) else none
    count :=
      if chunks = 1 then some cnt
      else if 1 < chunks then
        if cnt < i * pagesize + pagesize then some (cnt - i * pagesize)
        else some pagesize
      else none }

/-- Chunking loop of define_requests, after the record count has been
resolved: compute chunks, fall back to get_sortkey when several chunks
are needed and no sort key was given, and emit one request per chunk. -/
def buildRequests (ctx : WFSContext) (table crs : String)
    (sortby : Option String) (cql : Option String) (cnt : Nat) :
    List WFSRequest :=
  let chunks := ceilDiv cnt ctx.pagesize
  let sortby2 :=
    if 1 < chunks ∧ strOptTruthy sortby = false then
      some (get_sortkey ctx table).key
    else sortby
  (List.range chunks).map (chunkRequest ctx.pagesize table crs sortby2 cql cnt chunks)

/-- Count-resolution prologue of define_requests. Returns the effective
count together with a flag recording whether the hits query was issued;
the error case is the ValueError raised for a falsy count with
check_count=False. -/
def resolveCount (ctx : WFSContext) (count : Option Nat) (check_count : Bool) :
    Except String (Nat × Bool) :=
  if countTruthy count = false ∧ check_count = false then
    .error "\x7bcount: Null, check_count=False\x7d is invalid, either provide record count or let bcdata request it"
  else if countTruthy count = false ∧ check_count = true then
    .ok (ctx.trueCount, true)
  else if countTruthy count = true ∧ check_count = true then
    .ok ((if ctx.trueCount < count.getD 0 then ctx.trueCount else count.getD 0), true)
  else
    .ok (count.getD 0, false)

/-- BCWFS.define_requests: resolve the count then build the request list. -/
def define_requests (ctx : WFSContext) (table crs : String)
    (query : Option String) (bndQuery : Option String)
    (count : Option Nat) (sortby : Option String) (check_count : Bool) :
    Except String (List WFSRequest) :=
  match resolveCount ctx count check_count with
  | .error e => .error e
  | .ok (cnt, _) =>
    .ok (buildRequests ctx table crs sortby (build_bounds_filter query bndQuery) cnt)

/-- The count parameters of a request plan (0 for an absent count key). -/
def requestCounts (urls : List WFSRequest) : List Nat :=
  urls.map (fun r => r.count.getD 0)

/-! Geometries, features and the retrying transport. -/

/-- A coordinate pair (payload detail is irrelevant to the claims). -/
abbrev Coord := Int × Int

/-- GeoJSON geometry kinds handled by the package. -/
inductive Geom where
  | point (p : Coord)
  | linestring (l : List Coord)
  | polygon (rings : List (List Coord))
  | multipoint (ps : List Coord)
  | multilinestring (ls : List (List Coord))
  | multipolygon (pgs : List (List (List Coord)))
deriving Repr, DecidableEq

/-- One feature: optional geometry plus a properties mapping, modelled as
an association list in insertion order. -/
structure Feature where
  geometry : Option Geom
  properties : List (String × String)
deriving Repr, DecidableEq

/-- One HTTP response as the transport sees it: status code, text body
(diagnostics), parsed feature payload and the hits-query match count. -/
structure HTTPResponse where
  status : Nat
  text : String
  features : List Feature
  numberMatched : Nat
deriving Repr, DecidableEq

/-- Errors the transport can surface: ServiceException carries the
response text; httpError is the HTTPError that escapes once the retry
deadline is exhausted. -/
inductive FetchError where
  | serviceException (diagnostics : String)
  | httpError (status : Nat)
deriving Repr, DecidableEq

/-- Statuses treated as permanent client errors (raise, never retried). -/
def permanentStatus (s : Nat) : Bool :=
  s == 400 || s == 401 || s == 404

/-- Statuses treated as transient service errors (raise HTTPError, retried). -/
def transientStatus (s : Nat) : Bool :=
  s == 500 || s == 502 || s == 503 || s == 504

/-- BCWFS._request_features under its stamina retry-on-HTTPError wrapper.
The input list is the sequence of responses successive attempts would
receive; exhausting it while retrying models the deadline expiring, at
which point the pending HTTPError escapes. The second component counts
attempts actually made. -/
def request_features : List HTTPResponse → Except FetchError (List Feature) × Nat
  | [] => (.error (.httpError 0), 0)
  | r :: rest =>
    if permanentStatus r.status then
      (.error (.serviceException r.text), 1)
    else if transientStatus r.status then
      match rest with
      | [] => (.error (.httpError r.status), 1)
      | r2 :: rest2 =>
        let res := request_features (r2 :: rest2)
        (res.1, res.2 + 1)
    else
      (.ok r.features, 1)

/-- BCWFS._request_count under the same retry wrapper and with the same
status classification; a successful attempt yields numberMatched. -/
def request_count : List HTTPResponse → Except FetchError Nat × Nat
  | [] => (.error (.httpError 0), 0)
  | r :: rest =>
    if permanentStatus r.status then
      (.error (.serviceException r.text), 1)
    else if transientStatus r.status then
      match rest with
      | [] => (.error (.httpError r.status), 1)
      | r2 :: rest2 =>
        let res := request_count (r2 :: rest2)
        (res.1, res.2 + 1)
    else
      (.ok r.numberMatched, 1)

/-! Feature aggregation: materialized (get_data / make_requests) and lazy
(get_features). Successful page fetches are an oracle from request to
feature list, so both paths can be compared on identical parameters. -/

/-- Lowercase every property key of one feature (the dict comprehension
applied per feature when lowercase=True). -/
def lowercaseFeature (f : Feature) : Feature :=
  { f with properties := f.properties.map (fun kv => (kv.1.toLower, kv.2)) }

/-- BCWFS.make_requests restricted to its data content: fetch every url in
order, concatenate the feature lists, then lowercase keys if asked. -/
def make_requests (fetch : WFSRequest → List Feature)
    (urls : List WFSRequest) (lowercase : Bool) : List Feature :=
  let features := (urls.map fetch).flatten
  if lowercase then features.map lowercaseFeature else features

/-- BCWFS.get_data: plan the requests (check_count left at its default
True) and materialize all pages. -/
def get_data (ctx : WFSContext) (fetch : WFSRequest → List Feature)
    (table crs : String) (query bndQuery : Option String)
    (count : Option Nat) (sortby : Option String) (lowercase : Bool) :
    Except String (List Feature) :=
  (define_requests ctx table crs query bndQuery count sortby true).map
    (fun urls => make_requests fetch urls lowercase)

/-- Features yielded while consuming one page of the lazy iterator:
each feature is lowercased (when asked) as it is yielded. -/
def pageFeatures (fetch : WFSRequest → List Feature) (lowercase : Bool)
    (url : WFSRequest) : List Feature :=
  (fetch url).map (fun f => if lowercase then lowercaseFeature f else f)

/-- BCWFS.get_features: plan the requests, then yield the features of each
page in order, page after page. -/
def get_features (ctx : WFSContext) (fetch : WFSRequest → List Feature)
    (table crs : String) (query bndQuery : Option String)
    (count : Option Nat) (sortby : Option String) (lowercase : Bool)
    (check_count : Bool) : Except String (List Feature) :=
  (define_requests ctx table crs query bndQuery count sortby check_count).map
    (fun urls => (urls.map (pageFeatures fetch lowercase)).flatten)

/-! Multipart promotion, as the three list passes in bc2pg's page loop. -/

/-- First promotion pass: every Point becomes MultiPoint([point]). -/
def promotePoints (gs : List Geom) : List Geom :=
  gs.map fun g =>
    match g with
    | .point p => .multipoint [p]
    | g' => g'

/-- Second promotion pass: every LineString becomes MultiLineString. -/
def promoteLinestrings (gs : List Geom) : List Geom :=
  gs.map fun g =>
    match g with
    | .linestring l => .multilinestring [l]
    | g' => g'

/-- Third promotion pass: every Polygon becomes MultiPolygon. -/
def promotePolygons (gs : List Geom) : List Geom :=
  gs.map fun g =>
    match g with
    | .polygon rings => .multipolygon [rings]
    | g' => g'

/-- The promotion applied to the geometry column of one page: the three
passes in source order. -/
def promoteMultipart (gs : List Geom) : List Geom :=
  promotePolygons (promoteLinestrings (promotePoints gs))

/-- Net effect of the three passes on one geometry. -/
def promoteOne : Geom → Geom
  | .point p => .multipoint [p]
  | .linestring l => .multilinestring [l]
  | .polygon rings => .multipolygon [rings]
  | g => g

/-- True for the three multi-part geometry kinds. -/
def isMultiPart : Geom → Bool
  | .multipoint _ => true
  | .multilinestring _ => true
  | .multipolygon _ => true
  | _ => false

/-- True for geometries of point kind, single- or multi-part. -/
def isPointKind : Geom → Bool
  | .point _ => true
  | .multipoint _ => true
  | _ => false

/-- True exactly for MULTIPOINT geometries. -/
def isMultiPointKind : Geom → Bool
  | .multipoint _ => true
  | _ => false

/-! The destination database model: Database.define_table and the bc2pg
control flow around it. -/

/-- One column of the table definition provided by the catalogue API. -/
structure SourceColumn where
  column_name : String
  data_type : String
  data_precision : Nat
  column_comments : Option String
deriving Repr, DecidableEq

/-- Destination column types produced by the supported-type translation. -/
inductive ColumnType where
  | numeric
  | varchar (precision : Nat)
  | date
  | geometry (geom_type : String)
deriving Repr, DecidableEq

/-- One destination column: lowercased name, translated type, pk flag. -/
structure ColumnDef where
  name : String
  typ : ColumnType
  isPrimaryKey : Bool
deriving Repr, DecidableEq

/-- Geometry types accepted by the replication pipeline (bc2pg). -/
def SUPPORTED_TYPES : List String :=
  ["POINT", "POINTZ", "MULTIPOINT", "MULTIPOINTZ", "LINESTRING",
   "LINESTRINGZ", "MULTILINESTRING", "MULTILINESTRINGZ", "POLYGON",
   "MULTIPOLYGON"]

/-- Upstream types with a destination translation (Database.supported_types). -/
def supportedSourceTypes : List String := ["NUMBER", "VARCHAR2", "DATE"]

/-- Known-redundant computed columns dropped from every definition. -/
def redundantColumns : List String := ["FEATURE_AREA_SQM", "FEATURE_LENGTH_M"]

/-- Type translation for one retained source column. -/
def translateType (c : SourceColumn) : ColumnType :=
  if c.data_type == "VARCHAR2" then .varchar c.data_precision
  else if c.data_type == "NUMBER" then .numeric
  else .date

/-- The make-everything-multipart step of Database.define_table: prefix
MULTI unless the first five characters already read MULTI. -/
def multiGeomType (g : String) : String :=
  if g.take 5 ≠ "MULTI" then "MULTI" ++ g else g

/-- Column list built by Database.define_table: drop unsupported and
redundant source columns, translate the rest, then append the geometry
column of the promoted type. -/
def defineColumns (table_details : List SourceColumn) (geom_type : String)
    (primary_key : Option String) : List ColumnDef :=
  let kept :=
    (table_details.filter (fun c => c.data_type ∈ supportedSourceTypes)).filter
      (fun c => c.column_name ∉ redundantColumns)
  let cols := kept.map (fun c =>
    ColumnDef.mk c.column_name.toLower (translateType c)
      (primary_key == some c.column_name.toLower))
  cols ++ [ColumnDef.mk "geom" (.geometry (multiGeomType geom_type)) false]

/-- Observable destination-store actions, in execution order. -/
inductive DBEvent where
  | dropTable (name : String)
  | createTable (name : String)
  | loadPage (i : Nat)
deriving Repr, DecidableEq

/-- Database.define_table state change: drop an existing relation unless
appending, then create it when absent. Returns the new table list, the
DDL events in order, and the built column list. -/
def define_table (tables : List String) (qualifiedName : String)
    (table_details : List SourceColumn) (geom_type : String)
    (primary_key : Option String) (append : Bool) :
    List String × List DBEvent × List ColumnDef :=
  let cols := defineColumns table_details geom_type primary_key
  let dropped :=
    if qualifiedName ∈ tables ∧ append = false then
      (tables.erase qualifiedName, [DBEvent.dropTable qualifiedName])
    else (tables, ([] : List DBEvent))
  let created :=
    if qualifiedName ∉ dropped.1 then
      (dropped.1 ++ [qualifiedName], dropped.2 ++ [DBEvent.createTable qualifiedName])
    else dropped
  (created.1, created.2, cols)

/-- Control flow of bc2pg around table existence: in append mode the
destination must pre-exist (else the call fails before anything runs);
otherwise define_table runs first and the page loads follow it. The ok
result is the final table list plus the event trace in order. -/
def bc2pg (tables : List String) (dest : String)
    (table_details : List SourceColumn) (geom_type : String)
    (primary_key : Option String) (append schema_only : Bool)
    (numPages : Nat) : Except String (List String × List DBEvent) :=
  if schema_only ∧ append then
    .error "Options schema_only and append are not compatible"
  else if append then
    if dest ∉ tables then .error (dest ++ " does not exist")
    else
      .ok (tables, (List.range numPages).map DBEvent.loadPage)
  else
    let r := define_table tables dest table_details geom_type primary_key false
    let pageEv := if schema_only then [] else (List.range numPages).map DBEvent.loadPage
    .ok (r.1, r.2.1 ++ pageEv)

/-! Arithmetic facts about the chunking computation. -/

lemma ceilDiv_eq (n p : Nat) (hp : 0 < p) :
    ceilDiv n p = if n % p = 0 then n / p else n / p + 1 := by
  have hdm := Nat.div_add_mod n p
  have hm : n % p < p := Nat.mod_lt _ hp
  unfold ceilDiv
  rcases Nat.eq_zero_or_pos (n % p) with h0 | h1
  · rw [if_pos h0]
    have hn : n + p - 1 = (p - 1) + p * (n / p) := by omega
    rw [hn, Nat.add_mul_div_left _ _ hp, Nat.div_eq_of_lt (by omega)]
    omega
  · rw [if_neg (by omega)]
    have hms : p * (n / p + 1) = p * (n / p) + p := Nat.mul_succ p (n / p)
    have hn : n + p - 1 = (n % p - 1) + p * (n / p + 1) := by omega
    rw [hn, Nat.add_mul_div_left _ _ hp, Nat.div_eq_of_lt (by omega)]
    omega

lemma ceilDiv_spec (n p : Nat) (hp : 0 < p) :
    n ≤ ceilDiv n p * p ∧ ceilDiv n p * p < n + p := by
  rw [ceilDiv_eq n p hp]
  have hdm := Nat.div_add_mod n p
  have hm : n % p < p := Nat.mod_lt _ hp
  set q := n / p with hq
  set r := n % p with hr
  have hc : q * p = p * q := Nat.mul_comm _ _
  split
  · omega
  · have hs : (q + 1) * p = q * p + p := Nat.succ_mul _ _
    omega

lemma lastCount_arith (n p : Nat) (hp : 0 < p) (hn : 1 ≤ n) :
    min p (n - (ceilDiv n p - 1) * p) =
      if n % p = 0 then p else n % p := by
  rw [ceilDiv_eq n p hp]
  have hdm := Nat.div_add_mod n p
  have hm : n % p < p := Nat.mod_lt _ hp
  generalize hqd : n / p = q at hdm ⊢
  generalize hrd : n % p = r at hdm hm ⊢
  have hc : q * p = p * q := Nat.mul_comm _ _
  rcases Nat.eq_zero_or_pos r with h0 | h1
  · rw [if_pos h0, if_pos h0]
    have hq : 1 ≤ q := by
      rcases Nat.eq_zero_or_pos q with hq0 | hq1
      · rw [hq0] at hdm; simp at hdm; omega
      · exact hq1
    have hsub : (q - 1) * p = q * p - 1 * p := Nat.sub_mul _ _ _
    have hpl : p * 1 ≤ p * q := Nat.mul_le_mul_left p hq
    rw [Nat.min_def]
    split <;> omega
  · rw [if_neg (by omega), if_neg (by omega)]
    have hz : q + 1 - 1 = q := by omega
    rw [hz, Nat.min_def]
    split <;> omega

lemma sum_min_counts (p n : Nat) :
    ∀ k, ((List.range k).map (fun i => min p (n - i * p))).sum = min (k * p) n := by
  intro k
  induction k with
  | zero => simp
  | succ m ih =>
    rw [List.range_succ, List.map_append, List.sum_append, ih]
    have h1 : (m + 1) * p = m * p + p := Nat.succ_mul _ _
    simp only [List.map_cons, List.map_nil, List.sum_cons, List.sum_nil]
    rw [Nat.min_def, Nat.min_def, Nat.min_def]
    split <;> split <;> split <;> omega

/-! Shape of the request list built by the chunk loop. -/

lemma buildRequests_length (ctx : WFSContext) (t c : String)
    (sb cql : Option String) (n : Nat) :
    (buildRequests ctx t c sb cql n).length = ceilDiv n ctx.pagesize := by
  simp [buildRequests]

lemma buildRequests_getElem (ctx : WFSContext) (t c : String)
    (sb cql : Option String) (n i : Nat)
    (hi : i < (buildRequests ctx t c sb cql n).length) :
    (buildRequests ctx t c sb cql n)[i] =
      chunkRequest ctx.pagesize t c
        (if 1 < ceilDiv n ctx.pagesize ∧ strOptTruthy sb = false then
          some (get_sortkey ctx t).key
        else sb)
        cql n (ceilDiv n ctx.pagesize) i := by
  simp [buildRequests]

lemma chunkRequest_count (p : Nat) (t c : String) (sb cql : Option String)
    (n i : Nat) (hp : 0 < p) (hi : i < ceilDiv n p) :
    (chunkRequest p t c sb cql n (ceilDiv n p) i).count =
      some (min p (n - i * p)) := by
  have hspec := ceilDiv_spec n p hp
  simp only [chunkRequest]
  by_cases h1 : ceilDiv n p = 1
  · have hi0 : i = 0 := by omega
    subst hi0
    rw [if_pos h1]
    rw [h1, Nat.one_mul] at hspec
    simp only [Nat.zero_mul, Nat.sub_zero, Option.some.injEq]
    rw [Nat.min_def]
    split <;> omega
  · have h2 : 1 < ceilDiv n p := by omega
    rw [if_neg h1, if_pos h2]
    split <;>
      · simp only [Option.some.injEq]
        rw [Nat.min_def]
        split <;> omega

lemma buildRequests_counts_sum (ctx : WFSContext) (t c : String)
    (sb cql : Option String) (n : Nat) (hp : 0 < ctx.pagesize) :
    (requestCounts (buildRequests ctx t c sb cql n)).sum = n := by
  have hspec := ceilDiv_spec n ctx.pagesize hp
  unfold requestCounts buildRequests
  rw [List.map_map]
  have hcong :
      (List.range (ceilDiv n ctx.pagesize)).map
          ((fun r : WFSRequest => r.count.getD 0) ∘
            chunkRequest ctx.pagesize t c
              (if 1 < ceilDiv n ctx.pagesize ∧ strOptTruthy sb = false then
                some (get_sortkey ctx t).key
              else sb) cql n (ceilDiv n ctx.pagesize)) =
        (List.range (ceilDiv n ctx.pagesize)).map
          (fun i => min ctx.pagesize (n - i * ctx.pagesize)) := by
    refine List.map_congr_left ?_
    intro i hmem
    have hi : i < ceilDiv n ctx.pagesize := List.mem_range.mp hmem
    simp only [Function.comp]
    rw [chunkRequest_count _ _ _ _ _ _ _ hp hi]
    rfl
  rw [hcong, sum_min_counts]
  have : min (ceilDiv n ctx.pagesize * ctx.pagesize) n = n := Nat.min_eq_right hspec.1
  omega

lemma range_map_getLast (f : Nat → WFSRequest) (k : Nat) (hk : 0 < k) :
    ((List.range k).map f).getLast? = some (f (k - 1)) := by
  rcases k with _ | m
  · omega
  · rw [List.range_succ, List.map_append]
    simp

lemma ceilDiv_pos (n p : Nat) (hp : 0 < p) (hn : 1 ≤ n) :
    0 < ceilDiv n p := by
  have hspec := ceilDiv_spec n p hp
  rcases Nat.eq_zero_or_pos (ceilDiv n p) with h | h
  · rw [h] at hspec
    simp at hspec
    omega
  · exact h

lemma ceilDiv_zero_left (p : Nat) : ceilDiv 0 p = 0 := by
  unfold ceilDiv
  rcases Nat.eq_zero_or_pos p with hp | hp
  · subst hp
    rfl
  · exact Nat.div_eq_of_lt (by omega)

/-! Claim theorems. -/

/-- C1: for a table with N ≥ 1 matching records and server page size P > 0,
the authoritative-count path of define_requests yields exactly ceil(N/P)
page requests that partition [0, N): request i carries
startIndex = i·P exactly when more than one chunk is needed, its count is
min(P, N − i·P) and so never exceeds P, the counts sum to exactly N, and
the last request's count is N mod P (or P when N mod P = 0). -/
theorem define_requests_paging_partition
    (ctx : WFSContext) (table crs : String) (query bnd sb : Option String)
    (urls : List WFSRequest)
    (hP : 0 < ctx.pagesize) (hN : 1 ≤ ctx.trueCount)
    (hurls : define_requests ctx table crs query bnd none sb true =
      Except.ok urls) :
    urls.length = ceilDiv ctx.trueCount ctx.pagesize ∧
    (∀ i, ∀ hi : i < urls.length,
        urls[i].startIndex =
          (if 1 < ceilDiv ctx.trueCount ctx.pagesize then
            some (i * ctx.pagesize)
          else none) ∧
        urls[i].count =
          some (min ctx.pagesize (ctx.trueCount - i * ctx.pagesize)) ∧
        urls[i].count.getD 0 ≤ ctx.pagesize) ∧
    (requestCounts urls).sum = ctx.trueCount ∧
    urls.getLast?.bind WFSRequest.count =
      some (if ctx.trueCount % ctx.pagesize = 0 then ctx.pagesize
            else ctx.trueCount % ctx.pagesize) := by
  have hu : urls =
      buildRequests ctx table crs sb (build_bounds_filter query bnd)
        ctx.trueCount := by
    simp [define_requests, resolveCount, countTruthy] at hurls
    exact hurls.symm
  subst hu
  refine ⟨buildRequests_length _ _ _ _ _ _, ?_, ?_, ?_⟩
  · intro i hi
    have hi' : i < ceilDiv ctx.trueCount ctx.pagesize := by
      rw [← buildRequests_length ctx table crs sb (build_bounds_filter query bnd)]
      exact hi
    rw [buildRequests_getElem]
    refine ⟨rfl, chunkRequest_count _ _ _ _ _ _ _ hP hi', ?_⟩
    rw [chunkRequest_count _ _ _ _ _ _ _ hP hi']
    simp [Nat.min_le_left]
  · exact buildRequests_counts_sum _ _ _ _ _ _ hP
  · have hC := ceilDiv_pos ctx.trueCount ctx.pagesize hP hN
    unfold buildRequests
    rw [range_map_getLast _ _ hC]
    simp only [Option.some_bind]
    have hlt : ceilDiv ctx.trueCount ctx.pagesize - 1 <
        ceilDiv ctx.trueCount ctx.pagesize := by omega
    rw [chunkRequest_count _ _ _ _ _ _ _ hP hlt,
      lastCount_arith _ _ hP hN]

/-- Witness for C1 at the spec's AIRPORTS scenario (455 records, page
size 250): the planned counts sum to 455. -/
theorem define_requests_paging_partition_witness :
    (requestCounts (buildRequests ⟨250, 455, ["SEQUENCE_ID"], []⟩
      "WHSE_IMAGERY_AND_BASE_MAPS.GSR_AIRPORTS_SVW" "epsg:4326"
      none none 455)).sum = 455 :=
  (define_requests_paging_partition ⟨250, 455, ["SEQUENCE_ID"], []⟩
    "WHSE_IMAGERY_AND_BASE_MAPS.GSR_AIRPORTS_SVW" "epsg:4326" none none none
    (buildRequests ⟨250, 455, ["SEQUENCE_ID"], []⟩
      "WHSE_IMAGERY_AND_BASE_MAPS.GSR_AIRPORTS_SVW" "epsg:4326" none none 455)
    (by decide) (by decide) rfl).2.2.1

/-- C2 (amended): when the authoritative match count is zero,
define_requests returns the empty plan — no page requests at all — and
both retrieval paths yield an empty result rather than an error. -/
theorem define_requests_zero_count_empty_plan
    (ctx : WFSContext) (fetch : WFSRequest → List Feature)
    (table crs : String) (query bnd sb : Option String) (lowercase : Bool)
    (h0 : ctx.trueCount = 0) :
    define_requests ctx table crs query bnd none sb true = Except.ok [] ∧
    get_data ctx fetch table crs query bnd none sb lowercase =
      Except.ok [] ∧
    get_features ctx fetch table crs query bnd none sb lowercase true =
      Except.ok [] := by
  have hb : buildRequests ctx table crs sb (build_bounds_filter query bnd)
      ctx.trueCount = [] := by
    rw [h0]
    unfold buildRequests
    rw [ceilDiv_zero_left]
    simp
  have h1 : define_requests ctx table crs query bnd none sb true =
      Except.ok [] := by
    simp [define_requests, resolveCount, countTruthy, hb]
  refine ⟨h1, ?_, ?_⟩
  · rw [get_data, h1]
    cases lowercase <;> simp [make_requests, Except.map]
  · rw [get_features, h1]
    simp [Except.map]

/-- Witness for C2's amended statement: a zero-count table yields an
empty lazy retrieval with no error. -/
theorem define_requests_zero_count_empty_plan_witness :
    get_features ⟨10000, 0, ["OBJECTID"], []⟩ (fun _ => [])
      "WHSE_TEST.EMPTY_TBL" "epsg:4326" none none none none false true =
      Except.ok [] :=
  (define_requests_zero_count_empty_plan ⟨10000, 0, ["OBJECTID"], []⟩
    (fun _ => []) "WHSE_TEST.EMPTY_TBL" "epsg:4326" none none none false
    rfl).2.2

/-- C2 counterexample: with page size 10000 and an authoritative count of
zero, define_requests returns a plan of length 0, not the single count-0
request the claim describes. -/
theorem define_requests_zero_count_counterexample :
    (define_requests ⟨10000, 0, ["OBJECTID"], []⟩ "WHSE_TEST.EMPTY_TBL"
        "epsg:4326" none none none none true).map List.length =
      Except.ok 0 ∧ (0 : Nat) ≠ 1 :=
  ⟨rfl, by decide⟩

/-- C3: with count-checking enabled, an explicit count larger than the
true match count is clamped down — the plan is exactly the
authoritative-count plan — while an explicit count at most the true count
is used verbatim: the plan then has exactly ceil(k/P) page requests whose
counts sum to exactly k. -/
theorem define_requests_explicit_count_clamp
    (ctx : WFSContext) (table crs : String) (query bnd sb : Option String)
    (k : Nat) (hk : 1 ≤ k) (hP : 0 < ctx.pagesize) :
    (ctx.trueCount < k →
      define_requests ctx table crs query bnd (some k) sb true =
        define_requests ctx table crs query bnd none sb true) ∧
    (k ≤ ctx.trueCount →
      define_requests ctx table crs query bnd (some k) sb true =
        Except.ok (buildRequests ctx table crs sb
          (build_bounds_filter query bnd) k) ∧
      (buildRequests ctx table crs sb (build_bounds_filter query bnd)
          k).length = ceilDiv k ctx.pagesize ∧
      (requestCounts (buildRequests ctx table crs sb
          (build_bounds_filter query bnd) k)).sum = k) := by
  have hk0 : k ≠ 0 := by omega
  constructor
  · intro hlt
    simp [define_requests, resolveCount, countTruthy, hk0, hlt]
  · intro hle
    have hnl : ¬ctx.trueCount < k := by omega
    refine ⟨?_, buildRequests_length _ _ _ _ _ _,
      buildRequests_counts_sum _ _ _ _ _ _ hP⟩
    simp [define_requests, resolveCount, countTruthy, hk0, hnl]

/-- Witness for C3 at the spec's partial-fetch scenario: explicitly
requesting 100 of 455 available records plans counts summing to 100. -/
theorem define_requests_explicit_count_clamp_witness :
    (requestCounts (buildRequests ⟨250, 455, ["SEQUENCE_ID"], []⟩
      "WHSE_IMAGERY_AND_BASE_MAPS.GSR_AIRPORTS_SVW" "epsg:4326"
      none none 100)).sum = 100 :=
  ((define_requests_explicit_count_clamp ⟨250, 455, ["SEQUENCE_ID"], []⟩
    "WHSE_IMAGERY_AND_BASE_MAPS.GSR_AIRPORTS_SVW" "epsg:4326" none none none
    100 (by decide) (by decide)).2 (by decide)).2.2

/-- C9: a falsy explicit count (absent or zero) together with
check_count=False raises the ValueError — no plan is produced — and an
explicit count of zero with checking enabled is verified against the
service exactly like an absent count, so 0 cannot bypass verification. -/
theorem define_requests_falsy_count_requires_check
    (ctx : WFSContext) (table crs : String) (query bnd sb : Option String) :
    (∀ count, countTruthy count = false →
      define_requests ctx table crs query bnd count sb false =
        Except.error "\x7bcount: Null, check_count=False\x7d is invalid, either provide record count or let bcdata request it") ∧
    define_requests ctx table crs query bnd (some 0) sb false =
      Except.error "\x7bcount: Null, check_count=False\x7d is invalid, either provide record count or let bcdata request it" ∧
    define_requests ctx table crs query bnd (some 0) sb true =
      define_requests ctx table crs query bnd none sb true := by
  refine ⟨?_, ?_, ?_⟩
  · intro count hc
    simp [define_requests, resolveCount, hc]
  · simp [define_requests, resolveCount, countTruthy]
  · simp [define_requests, resolveCount, countTruthy]

/-- C4 counterexample: with schema properties ["ZZZ", "AAA"], no registered
primary key and neither conventional identifier column, get_sortkey falls
back to the first schema column "ZZZ", although property "AAA" is
lexicographically smaller — the heuristic is schema order, not
lexicographic order. -/
theorem get_sortkey_not_lexicographic_counterexample :
    get_sortkey ⟨10000, 20001, ["ZZZ", "AAA"], []⟩ "WHSE_TEST.TBL" =
      ⟨"ZZZ", true⟩ ∧
    "AAA" ∈ (⟨10000, 20001, ["ZZZ", "AAA"], []⟩ : WFSContext).properties ∧
    "AAA".toList < "ZZZ".toList := by
  refine ⟨rfl, by decide, by decide⟩

/-- C4 (amended): when a plan needs several pages and no sort key is
given, the sort key comes from the ordered fallback chain — a registered
known primary key (uppercased), else OBJECTID when present in the schema,
else SEQUENCE_ID when present, else the first property in schema order
with the diagnostic warning — and it is applied (uppercased) to every
request of a multi-page plan, while a single-page plan gets no sort key. -/
theorem get_sortkey_fallback_chain
    (ctx : WFSContext) (table crs : String) (cql : Option String) (n : Nat) :
    (∀ pk, ctx.primaryKeys.lookup table.toLower = some pk →
      get_sortkey ctx table = ⟨pk.toUpper, false⟩) ∧
    (ctx.primaryKeys.lookup table.toLower = none →
      "OBJECTID" ∈ ctx.properties →
      get_sortkey ctx table = ⟨"OBJECTID", false⟩) ∧
    (ctx.primaryKeys.lookup table.toLower = none →
      "OBJECTID" ∉ ctx.properties → "SEQUENCE_ID" ∈ ctx.properties →
      get_sortkey ctx table = ⟨"SEQUENCE_ID", false⟩) ∧
    (ctx.primaryKeys.lookup table.toLower = none →
      "OBJECTID" ∉ ctx.properties → "SEQUENCE_ID" ∉ ctx.properties →
      ∀ a l, ctx.properties = a :: l →
        get_sortkey ctx table = ⟨a, true⟩) ∧
    (∀ i, ∀ hi : i < (buildRequests ctx table crs none cql n).length,
      (1 < ceilDiv n ctx.pagesize →
        (buildRequests ctx table crs none cql n)[i].sortby =
          (if (get_sortkey ctx table).key.isEmpty then none
           else some (get_sortkey ctx table).key.toUpper)) ∧
      (ceilDiv n ctx.pagesize ≤ 1 →
        (buildRequests ctx table crs none cql n)[i].sortby = none)) := by
  refine ⟨?_, ?_, ?_, ?_, ?_⟩
  · intro pk hpk
    simp [get_sortkey, hpk]
  · intro hpk hobj
    simp [get_sortkey, hpk, hobj]
  · intro hpk hobj hseq
    simp [get_sortkey, hpk, hobj, hseq]
  · intro hpk hobj hseq a l hp
    rw [hp] at hobj hseq
    simp only [get_sortkey, hpk]
    rw [hp, if_neg hobj, if_neg hseq]
    rfl
  · intro i hi
    constructor
    · intro hmulti
      rw [buildRequests_getElem]
      rw [if_pos (by exact ⟨hmulti, rfl⟩)]
      simp [chunkRequest]
    · intro hsingle
      rw [buildRequests_getElem]
      rw [if_neg (by intro hc; omega)]
      simp [chunkRequest]

/-- Witness for C4 at the spec's UTM_ZONES scenario: 6 records, page size
10000 — the OBJECTID fallback fires and the single-page plan carries no
sort key. -/
theorem get_sortkey_fallback_chain_witness :
    get_sortkey ⟨10000, 6, ["UTM_ZONE", "OBJECTID"], []⟩ "WHSE_TEST.UTM" =
      ⟨"OBJECTID", false⟩ ∧
    ((buildRequests ⟨10000, 6, ["UTM_ZONE", "OBJECTID"], []⟩ "WHSE_TEST.UTM"
      "epsg:3005" none none 6).get ⟨0, by decide⟩).sortby = none :=
  ⟨(get_sortkey_fallback_chain ⟨10000, 6, ["UTM_ZONE", "OBJECTID"], []⟩
      "WHSE_TEST.UTM" "epsg:3005" none 6).2.1 rfl (by decide),
    ((get_sortkey_fallback_chain ⟨10000, 6, ["UTM_ZONE", "OBJECTID"], []⟩
      "WHSE_TEST.UTM" "epsg:3005" none 6).2.2.2.2 0 (by decide)).2
      (by decide)⟩

/-- Witness for C9: the concrete zero-count, check-off call errors. -/
theorem define_requests_falsy_count_requires_check_witness :
    define_requests ⟨10000, 42, ["OBJECTID"], []⟩ "WHSE_TEST.TBL"
      "epsg:4326" none none (some 0) none false =
      Except.error "\x7bcount: Null, check_count=False\x7d is invalid, either provide record count or let bcdata request it" :=
  (define_requests_falsy_count_requires_check ⟨10000, 42, ["OBJECTID"], []⟩
    "WHSE_TEST.TBL" "epsg:4326" none none none).1 (some 0) (by decide)

lemma transient_not_permanent (t : Nat) (ht : transientStatus t = true) :
    permanentStatus t = false := by
  simp only [transientStatus, Bool.or_eq_true, beq_iff_eq] at ht
  have h4 : t ≠ 400 := by omega
  have h1 : t ≠ 401 := by omega
  have h0 : t ≠ 404 := by omega
  simp [permanentStatus, h4, h1, h0]

/-- C5: a 400/401/404 response makes both the feature request and the
count request raise the service-request error carrying the response text
after exactly one attempt, whatever responses would have followed (no
retry); a 500/502/503/504 response is retried, so its outcome is the
outcome of the remaining attempts — in particular a transient failure
followed by a 200 success is identical to an immediate 200 success. -/
theorem transport_status_classification
    (s t : Nat) (d : String) (fs : List Feature) (m : Nat)
    (r2 : HTTPResponse) (rest : List HTTPResponse) :
    (permanentStatus s = true →
      request_features (⟨s, d, fs, m⟩ :: rest) =
        (Except.error (.serviceException d), 1) ∧
      request_count (⟨s, d, fs, m⟩ :: rest) =
        (Except.error (.serviceException d), 1)) ∧
    (transientStatus t = true →
      (request_features (⟨t, d, fs, m⟩ :: r2 :: rest)).1 =
        (request_features (r2 :: rest)).1 ∧
      (request_count (⟨t, d, fs, m⟩ :: r2 :: rest)).1 =
        (request_count (r2 :: rest)).1) ∧
    request_features (⟨200, d, fs, m⟩ :: rest) = (Except.ok fs, 1) ∧
    request_count (⟨200, d, fs, m⟩ :: rest) = (Except.ok m, 1) ∧
    (transientStatus t = true →
      (request_features [⟨t, d, fs, m⟩, ⟨200, d, fs, m⟩]).1 =
        (request_features [⟨200, d, fs, m⟩]).1) := by
  refine ⟨?_, ?_, ?_, ?_, ?_⟩
  · intro hperm
    constructor
    · rw [request_features.eq_def]
      simp [hperm]
    · rw [request_count.eq_def]
      simp [hperm]
  · intro ht
    have hp := transient_not_permanent t ht
    constructor
    · rw [request_features.eq_def]
      simp [hp, ht]
    · rw [request_count.eq_def]
      simp [hp, ht]
  · rw [request_features.eq_def]
    simp [permanentStatus, transientStatus]
  · rw [request_count.eq_def]
    simp [permanentStatus, transientStatus]
  · intro ht
    have hp := transient_not_permanent t ht
    rw [request_features.eq_def]
    simp [hp, ht]

/-- Witness for C5: a 404 carrying diagnostics errors in one attempt, and
a 503 followed by a 200 returns the 200 payload. -/
theorem transport_status_classification_witness :
    request_features [⟨404, "Not Found", [], 0⟩] =
      (Except.error (.serviceException "Not Found"), 1) ∧
    (request_features [⟨503, "oops", [], 0⟩, ⟨200, "", [], 0⟩]).1 =
      (request_features [⟨200, "", [], 0⟩]).1 :=
  ⟨((transport_status_classification 404 503 "Not Found" [] 0
      ⟨200, "", [], 0⟩ []).1 (by decide)).1,
    (transport_status_classification 404 503 "oops" [] 0
      ⟨200, "", [], 0⟩ []).2.2.2.2 (by decide)⟩

lemma pageFeatures_false (fetch : WFSRequest → List Feature) :
    pageFeatures fetch false = fetch := by
  funext u
  simp [pageFeatures]

lemma pageFeatures_true (fetch : WFSRequest → List Feature) :
    pageFeatures fetch true = fun u => (fetch u).map lowercaseFeature := by
  funext u
  simp [pageFeatures]

lemma make_requests_eq_pages (fetch : WFSRequest → List Feature)
    (lowercase : Bool) (urls : List WFSRequest) :
    make_requests fetch urls lowercase =
      (urls.map (pageFeatures fetch lowercase)).flatten := by
  cases lowercase
  · simp [make_requests, pageFeatures_false]
  · simp [make_requests, pageFeatures_true, List.map_flatten, List.map_map]
    rfl

/-- C6: materialized retrieval (get_data) and lazy retrieval
(get_features) agree on identical parameters — they return the same
feature list, hence the same multiset — and the lazy sequence is, at
every page boundary i, the features of the first i pages followed by the
features of the remaining pages, so page i is yielded only after every
feature of earlier pages. -/
theorem get_data_get_features_agree
    (ctx : WFSContext) (fetch : WFSRequest → List Feature)
    (table crs : String) (query bnd : Option String) (count : Option Nat)
    (sb : Option String) (lowercase : Bool) :
    get_data ctx fetch table crs query bnd count sb lowercase =
      get_features ctx fetch table crs query bnd count sb lowercase true ∧
    (∀ urls,
      define_requests ctx table crs query bnd count sb true =
        Except.ok urls →
      get_features ctx fetch table crs query bnd count sb lowercase true =
        Except.ok ((urls.map (pageFeatures fetch lowercase)).flatten) ∧
      ∀ i, (urls.map (pageFeatures fetch lowercase)).flatten =
        ((urls.take i).map (pageFeatures fetch lowercase)).flatten ++
          ((urls.drop i).map (pageFeatures fetch lowercase)).flatten) := by
  constructor
  · unfold get_data get_features
    cases hdr : define_requests ctx table crs query bnd count sb true with
    | error e => rfl
    | ok urls => simp [Except.map, make_requests_eq_pages]
  · intro urls h
    rw [get_features, h]
    constructor
    · simp [Except.map]
    · intro i
      conv_lhs =>
        rw [← List.take_append_drop i urls, List.map_append,
          List.flatten_append]

/-- Witness for C6: with a two-page plan and a concrete fetch oracle, the
lazy sequence splits at the first page boundary. -/
theorem get_data_get_features_agree_witness :
    get_features ⟨1, 2, ["OBJECTID"], []⟩
        (fun r => [⟨none, [("A", r.typeName)]⟩]) "T" "epsg:4326"
        none none none none false true =
      Except.ok (((buildRequests ⟨1, 2, ["OBJECTID"], []⟩ "T" "epsg:4326"
        none none 2).map
          (pageFeatures (fun r => [⟨none, [("A", r.typeName)]⟩]) false)).flatten) :=
  ((get_data_get_features_agree ⟨1, 2, ["OBJECTID"], []⟩
      (fun r => [⟨none, [("A", r.typeName)]⟩]) "T" "epsg:4326"
      none none none none false).2
    (buildRequests ⟨1, 2, ["OBJECTID"], []⟩ "T" "epsg:4326" none none 2)
    rfl).1

lemma promoteMultipart_eq_map (l : List Geom) :
    promoteMultipart l = l.map promoteOne := by
  induction l with
  | nil => rfl
  | cons g t ih =>
    simp only [promoteMultipart, promotePoints, promoteLinestrings,
      promotePolygons, List.map_cons] at ih ⊢
    rw [ih]
    cases g <;> rfl

/-- C7: the page-level multipart promotion maps each single-part geometry
(POINT, LINESTRING, POLYGON) to its multi-part equivalent, leaves
multi-part geometries unchanged, turns a mixed point/multipoint page into
an all-MULTIPOINT page, and applying it twice equals applying it once. -/
theorem multipart_promotion
    (l : List Geom) (g : Geom) (p : Coord) (ln : List Coord)
    (pg : List (List Coord)) :
    promoteMultipart l = l.map promoteOne ∧
    promoteOne (.point p) = .multipoint [p] ∧
    promoteOne (.linestring ln) = .multilinestring [ln] ∧
    promoteOne (.polygon pg) = .multipolygon [pg] ∧
    (isMultiPart g = true → promoteOne g = g) ∧
    isMultiPart (promoteOne g) = true ∧
    promoteMultipart (promoteMultipart l) = promoteMultipart l ∧
    ((∀ x ∈ l, isPointKind x = true) →
      ∀ y ∈ promoteMultipart l, isMultiPointKind y = true) := by
  refine ⟨promoteMultipart_eq_map l, rfl, rfl, rfl, ?_, ?_, ?_, ?_⟩
  · cases g <;> simp [isMultiPart, promoteOne]
  · cases g <;> rfl
  · rw [promoteMultipart_eq_map, promoteMultipart_eq_map l, List.map_map]
    refine List.map_congr_left ?_
    intro x hx
    cases x <;> rfl
  · intro hall y hy
    rw [promoteMultipart_eq_map] at hy
    obtain ⟨x, hx, rfl⟩ := List.mem_map.mp hy
    have hpt := hall x hx
    cases x <;> simp_all [isPointKind, isMultiPointKind, promoteOne]

/-- Witness for C7: a mixed POINT/MULTIPOINT page becomes all-MULTIPOINT
and the promotion there is idempotent. -/
theorem multipart_promotion_witness :
    (∀ y ∈ promoteMultipart [Geom.point (1, 2), Geom.multipoint [(3, 4)]],
      isMultiPointKind y = true) ∧
    promoteMultipart (promoteMultipart
        [Geom.point (1, 2), Geom.multipoint [(3, 4)]]) =
      promoteMultipart [Geom.point (1, 2), Geom.multipoint [(3, 4)]] :=
  ⟨(multipart_promotion [Geom.point (1, 2), Geom.multipoint [(3, 4)]]
      (Geom.point (0, 0)) (0, 0) [] []).2.2.2.2.2.2.2 (by decide),
    (multipart_promotion [Geom.point (1, 2), Geom.multipoint [(3, 4)]]
      (Geom.point (0, 0)) (0, 0) [] []).2.2.2.2.2.2.1⟩

/-- C8: a replication call in append mode fails with the not-found error
before any page load when the destination relation is missing; in create
mode the destination is first dropped when it pre-exists and then created
(created directly when absent), and all DDL events precede every
page-load event in the trace. -/
theorem bc2pg_append_create_modes
    (tables : List String) (dest : String) (details : List SourceColumn)
    (g : String) (pk : Option String) (schema_only : Bool) (numPages : Nat)
    (hnd : tables.Nodup) :
    (dest ∉ tables →
      bc2pg tables dest details g pk true false numPages =
        Except.error (dest ++ " does not exist")) ∧
    (∀ tables2 events,
      bc2pg tables dest details g pk false schema_only numPages =
        Except.ok (tables2, events) →
      dest ∈ tables2 ∧
      (dest ∈ tables →
        events = DBEvent.dropTable dest :: DBEvent.createTable dest ::
          (if schema_only then []
           else (List.range numPages).map DBEvent.loadPage)) ∧
      (dest ∉ tables →
        events = DBEvent.createTable dest ::
          (if schema_only then []
           else (List.range numPages).map DBEvent.loadPage))) := by
  constructor
  · intro h
    simp [bc2pg, h]
  · intro tables2 events h
    by_cases hmem : dest ∈ tables
    · have hdrop : dest ∉ tables.erase dest := by
        intro hc
        exact ((hnd.mem_erase_iff).mp hc).1 rfl
      simp [bc2pg, define_table, hmem, hdrop] at h
      refine ⟨?_, fun _ => ?_, fun hno => absurd hmem hno⟩
      · rw [← h.1]
        simp
      · rw [← h.2]
    · have hnotin : dest ∉ tables := hmem
      simp [bc2pg, define_table, hnotin] at h
      refine ⟨?_, fun hyes => absurd hyes hnotin, fun _ => ?_⟩
      · rw [← h.1]
        simp
      · rw [← h.2]

/-- Witness for C8: appending to a missing destination errors, and a
create-mode call over a pre-existing destination drops then recreates it
before loading its single page. -/
theorem bc2pg_append_create_modes_witness :
    bc2pg ["other.tbl"] "dest.tbl" [] "POINT" none true false 1 =
      Except.error "dest.tbl does not exist" ∧
    ([DBEvent.dropTable "dest.tbl", DBEvent.createTable "dest.tbl",
        DBEvent.loadPage 0] : List DBEvent) =
      DBEvent.dropTable "dest.tbl" :: DBEvent.createTable "dest.tbl" ::
        (if (false : Bool) then []
         else (List.range 1).map DBEvent.loadPage) :=
  ⟨(bc2pg_append_create_modes ["other.tbl"] "dest.tbl" [] "POINT" none
      false 1 (by decide)).1 (by decide),
    ((bc2pg_append_create_modes ["dest.tbl"] "dest.tbl" [] "POINT" none
      false 1 (by decide)).2 ["dest.tbl"]
      [DBEvent.dropTable "dest.tbl", DBEvent.createTable "dest.tbl",
        DBEvent.loadPage 0] rfl).2.1 (by decide)⟩

/-- C10: the table builder appends the geometry column last, its declared
type always begins with MULTI — a supported single-part type is prefixed
with MULTI, an already-multi-part type is kept unchanged. -/
theorem define_table_geometry_multi
    (details : List SourceColumn) (gt : String) (pk : Option String)
    (tables : List String) (name : String) (append : Bool)
    (hgt : gt ∈ SUPPORTED_TYPES) :
    (define_table tables name details gt pk append).2.2.getLast? =
      some ⟨"geom", .geometry (multiGeomType gt), false⟩ ∧
    (multiGeomType gt).take 5 = "MULTI" ∧
    (gt.take 5 = "MULTI" → multiGeomType gt = gt) ∧
    (gt.take 5 ≠ "MULTI" → multiGeomType gt = "MULTI" ++ gt) := by
  refine ⟨?_, ?_, ?_, ?_⟩
  · have h1 : (define_table tables name details gt pk append).2.2 =
        defineColumns details gt pk := rfl
    rw [h1]
    unfold defineColumns
    rw [List.getLast?_concat]
  · simp only [SUPPORTED_TYPES, List.mem_cons, List.not_mem_nil, or_false]
      at hgt
    rcases hgt with rfl | rfl | rfl | rfl | rfl | rfl | rfl | rfl | rfl | rfl
      <;> decide
  · intro h
    rw [multiGeomType, if_neg (by simp [h])]
  · intro h
    rw [multiGeomType, if_pos h]

/-- Witness for C10: POINT becomes MULTIPOINT and MULTIPOLYGON is kept,
with the geometry column last in the built definition. -/
theorem define_table_geometry_multi_witness :
    (define_table [] "dest.tbl" [] "POINT" none false).2.2.getLast? =
      some ⟨"geom", .geometry (multiGeomType "POINT"), false⟩ ∧
    multiGeomType "POINT" = "MULTI" ++ "POINT" ∧
    multiGeomType "MULTIPOLYGON" = "MULTIPOLYGON" :=
  ⟨(define_table_geometry_multi [] "POINT" none [] "dest.tbl" false
      (by decide)).1,
    (define_table_geometry_multi [] "POINT" none [] "dest.tbl" false
      (by decide)).2.2.2 (by decide),
    (define_table_geometry_multi [] "MULTIPOLYGON" none [] "dest.tbl" false
      (by decide)).2.2.1 (by decide)⟩

end BCData
